import Mathlib

/-
Verification of the notes-app backend (src/backend/main.py) against its
specification.  The Python service is embedded shallowly: the SQLite store
becomes an explicit record of lists, timestamps become natural numbers with
second resolution (SQLite CURRENT_TIMESTAMP has second resolution), and the
external bcrypt and JWT primitives are modelled per the interface contract
of the specification, section 6.  Each route handler becomes a pure function
from the database state and the request data to the new state and a result.
-/

namespace Notes

/-- Process-wide signing key, main.py line 12. -/
def SECRET_KEY : String := "your-secret-key-change-in-production"

/-- Token lifetime in minutes, main.py line 14. -/
def ACCESS_TOKEN_EXPIRE_MINUTES : Nat := 30

/-- Model of a bcrypt digest.  The external hashing primitive (spec section 6)
is abstracted as an injective pairing of the salt with the hashed password, so
that checkpw can be modelled as exact comparison against the stored value. -/
structure BcryptHash where
  salt : String
  hashed_of : String
  deriving DecidableEq, Repr

/-- main.py hash_password (line 109): bcrypt.hashpw with a fresh salt.  The
salt is threaded as an explicit argument since the model is deterministic. -/
def hash_password (salt password : String) : BcryptHash :=
  ⟨salt, password⟩

/-- main.py verify_password (line 112): bcrypt.checkpw. -/
def verify_password (password : String) (hashed : BcryptHash) : Bool :=
  hashed.hashed_of == password

/-- Decoded JWT payload: the user_id claim may be absent, exp is the absolute
expiry in seconds. -/
structure TokenPayload where
  user_id : Option Nat
  exp : Nat
  deriving DecidableEq, Repr

/-- Model of a JWT.  The external signing primitive (spec section 6) is
abstracted: a token is either a well-formed payload signed with some key, or
malformed bytes that fail decoding outright. -/
inductive Token where
  | signed (payload : TokenPayload) (key : String)
  | malformed (raw : String)
  deriving DecidableEq, Repr

/-- jwt.decode with a verification key: succeeds exactly when the token is
well formed, signed with the given key, and not expired at the current time
(per spec section 8, expiry strikes once current time passes the embedded
expiry instant). -/
def jwt_decode (token : Token) (key : String) (now : Nat) : Option TokenPayload :=
  match token with
  | .malformed _ => none
  | .signed p k => if k = key ∧ now ≤ p.exp then some p else none

/-- main.py create_access_token (lines 115-119): payload holds the user_id
claim and the expiry now + 30 minutes, signed with the process key. -/
def create_access_token (user_id : Nat) (now : Nat) : Token :=
  .signed ⟨some user_id, now + ACCESS_TOKEN_EXPIRE_MINUTES * 60⟩ SECRET_KEY

/-- Row of the users table (main.py lines 74-81). -/
structure UserRec where
  id : Nat
  username : String
  password_hash : BcryptHash
  created_at : Nat
  deriving DecidableEq, Repr

/-- Row of the notes table (main.py lines 83-93). -/
structure NoteRec where
  id : Nat
  title : String
  content : String
  owner_id : Nat
  created_at : Nat
  updated_at : Nat
  deriving DecidableEq, Repr

/-- The SQLite database: both tables plus the AUTOINCREMENT counters. -/
structure DB where
  users : List UserRec
  notes : List NoteRec
  next_user_id : Nat
  next_note_id : Nat
  deriving DecidableEq, Repr

/-- The conflict detail dict built in update_note (main.py lines 264-272):
error tag, message, the full current persisted note, and the rejected
proposed title and content (the your_changes dict). -/
structure ConflictData where
  error : String
  message : String
  current_note : NoteRec
  your_title : String
  your_content : String
  deriving DecidableEq, Repr

/-- Detail payload of an HTTPException: a plain message or conflict data. -/
inductive ErrorDetail where
  | msg (text : String)
  | conflict (data : ConflictData)
  deriving DecidableEq, Repr

/-- An HTTPException as raised by the handlers: status code plus detail. -/
structure HTTPError where
  status_code : Nat
  detail : ErrorDetail
  deriving DecidableEq, Repr

/-- 401 Invalid token (main.py lines 126, 129). -/
def invalidTokenError : HTTPError := ⟨401, .msg "Invalid token"⟩

/-- 401 Invalid credentials (main.py line 173). -/
def invalidCredentialsError : HTTPError := ⟨401, .msg "Invalid credentials"⟩

/-- 404 Note not found (main.py lines 230, 253, 304). -/
def notFoundError : HTTPError := ⟨404, .msg "Note not found"⟩

/-- 400 Username already exists (main.py line 146). -/
def duplicateUsernameError : HTTPError := ⟨400, .msg "Username already exists"⟩

/-- 409 Conflict carrying the conflict dict (main.py lines 262-273). -/
def conflictError (current_note : NoteRec) (your_title your_content : String) : HTTPError :=
  ⟨409, .conflict ⟨"conflict",
    "Note has been updated by another user. Please resolve conflicts.",
    current_note, your_title, your_content⟩⟩

/-- main.py get_current_user (lines 121-129): decode the bearer token with
the process key; on any decode failure or on a missing user_id claim raise
401 Invalid token, otherwise return the claimed user id.  Note that the
credential store is never consulted. -/
def get_current_user (credentials : Token) (now : Nat) : Except HTTPError Nat :=
  match jwt_decode credentials SECRET_KEY now with
  | none => .error invalidTokenError
  | some payload =>
    match payload.user_id with
    | none => .error invalidTokenError
    | some user_id => .ok user_id

/-- Response dict of register (main.py line 157). -/
structure RegisterResponse where
  id : Nat
  username : String
  message : String
  deriving DecidableEq, Repr

/-- main.py register (lines 135-160): SELECT by exact username; if a row
exists raise 400, otherwise INSERT the bcrypt hash and return the new id. -/
def register (db : DB) (now : Nat) (username password salt : String) :
    DB × Except HTTPError RegisterResponse :=
  if (db.users.find? (fun u => u.username == username)).isSome then
    (db, .error duplicateUsernameError)
  else
    let user_id := db.next_user_id
    ({ db with
        users := db.users ++ [⟨user_id, username, hash_password salt password, now⟩],
        next_user_id := user_id + 1 },
     .ok ⟨user_id, username, "User created"⟩)

/-- main.py login (lines 162-179): SELECT by exact username; if no row or
the password check fails raise the one 401 Invalid credentials error,
otherwise issue a token embedding the user id. -/
def login (db : DB) (now : Nat) (username password : String) : Except HTTPError Token :=
  match db.users.find? (fun u => u.username == username) with
  | none => .error invalidCredentialsError
  | some db_user =>
    if verify_password password db_user.password_hash then
      .ok (create_access_token db_user.id now)
    else
      .error invalidCredentialsError

/-- SELECT * FROM notes WHERE id = ? AND owner_id = ? (main.py lines 224-227,
247-250, 298-301: the identical owner-scoped lookup used by get, update and
delete). -/
def find_note (db : DB) (note_id current_user : Nat) : Option NoteRec :=
  db.notes.find? (fun n => n.id == note_id && n.owner_id == current_user)

/-- main.py create_note (lines 182-202): INSERT with both timestamps set to
now by the column defaults, return the fresh row. -/
def create_note (db : DB) (now current_user : Nat) (title content : String) :
    DB × NoteRec :=
  let n : NoteRec := ⟨db.next_note_id, title, content, current_user, now, now⟩
  ({ db with notes := db.notes ++ [n], next_note_id := db.next_note_id + 1 }, n)

/-- Insertion step of the ORDER BY updated_at DESC sort. -/
def insertByMarker (n : NoteRec) : List NoteRec → List NoteRec
  | [] => [n]
  | m :: ms => if m.updated_at < n.updated_at then n :: m :: ms else m :: insertByMarker n ms

/-- ORDER BY updated_at DESC (insertion sort; SQLite leaves the order of
tied rows unspecified, and so does any stable model). -/
def sortByMarkerDesc : List NoteRec → List NoteRec
  | [] => []
  | n :: ns => insertByMarker n (sortByMarkerDesc ns)

/-- main.py get_notes (lines 204-217): SELECT * FROM notes WHERE owner_id = ?
ORDER BY updated_at DESC. -/
def get_notes (db : DB) (current_user : Nat) : List NoteRec :=
  sortByMarkerDesc (db.notes.filter (fun n => n.owner_id == current_user))

/-- main.py get_note (lines 219-235): owner-scoped lookup, 404 when absent. -/
def get_note (db : DB) (note_id current_user : Nat) : Except HTTPError NoteRec :=
  match find_note db note_id current_user with
  | none => .error notFoundError
  | some n => .ok n

/-- The UPDATE statement of update_note (main.py lines 276-279) combined with
the AFTER UPDATE trigger (main.py lines 96-103): every row matching
id AND owner_id gets the new title and content, and the trigger then sets
updated_at = CURRENT_TIMESTAMP on each updated row (id is the primary key,
so the row the trigger touches is the row that was updated).  Note the
statement has NO condition on the stored marker. -/
def exec_update_note (notes : List NoteRec) (note_id current_user : Nat)
    (title content : String) (now : Nat) : List NoteRec :=
  notes.map (fun n =>
    if n.id == note_id && n.owner_id == current_user then
      { n with title := title, content := content, updated_at := now }
    else n)

/-- main.py update_note (lines 237-290): owner-scoped lookup (404 when
absent), exact-equality collision check between the stored marker and the
marker the caller believes (409 with the conflict dict on mismatch), then
the unconditional UPDATE plus trigger, then a re-fetch by id alone.  A
raised HTTPException leaves the database unchanged, so the error cases
return the incoming state. -/
def update_note (db : DB) (now : Nat) (note_id : Nat)
    (nu_title nu_content : String) (nu_updated_at : Nat) (current_user : Nat) :
    DB × Except HTTPError NoteRec :=
  match find_note db note_id current_user with
  | none => (db, .error notFoundError)
  | some current_note =>
    if current_note.updated_at ≠ nu_updated_at then
      (db, .error (conflictError current_note nu_title nu_content))
    else
      let notes1 := exec_update_note db.notes note_id current_user nu_title nu_content now
      let db1 : DB := { db with notes := notes1 }
      match notes1.find? (fun n => n.id == note_id) with
      | none => (db1, .error ⟨500, .msg "Internal Server Error"⟩)
      | some updated_note => (db1, .ok updated_note)

/-- main.py delete_note (lines 292-316): owner-scoped lookup (404 when
absent), then DELETE of every row matching id AND owner_id, with no
concurrency-marker check anywhere. -/
def delete_note (db : DB) (note_id current_user : Nat) : DB × Except HTTPError String :=
  match find_note db note_id current_user with
  | none => (db, .error notFoundError)
  | some _ =>
    ({ db with notes := db.notes.filter (fun n => !(n.id == note_id && n.owner_id == current_user)) },
     .ok "Note deleted successfully")

/-- First half of update_note as it executes against the store: the SELECT of
lines 247-250 followed by the collision check of lines 255-273.  After this
statement completes the connection holds no lock, so another request may run
its own read phase against the same state. -/
def occ_read_phase (db : DB) (note_id : Nat) (nu_title nu_content : String)
    (nu_updated_at : Nat) (current_user : Nat) : Except HTTPError NoteRec :=
  match find_note db note_id current_user with
  | none => .error notFoundError
  | some current_note =>
    if current_note.updated_at ≠ nu_updated_at then
      .error (conflictError current_note nu_title nu_content)
    else .ok current_note

/-- Second half of update_note as it executes against the store: the
unconditional UPDATE of lines 276-279 plus the trigger.  Its WHERE clause
mentions only id and owner_id, never the marker. -/
def occ_write_phase (db : DB) (now note_id current_user : Nat)
    (nu_title nu_content : String) : DB :=
  { db with notes := exec_update_note db.notes note_id current_user nu_title nu_content now }

/-- Coherence of the phase split: run sequentially with no interleaving,
read phase then write phase then re-fetch is exactly update_note. -/
theorem update_note_as_read_then_write (db : DB) (now note_id nu_updated_at current_user : Nat)
    (nu_title nu_content : String) :
    update_note db now note_id nu_title nu_content nu_updated_at current_user =
      match occ_read_phase db note_id nu_title nu_content nu_updated_at current_user with
      | .error e => (db, .error e)
      | .ok _ =>
        let db1 := occ_write_phase db now note_id current_user nu_title nu_content
        match db1.notes.find? (fun n => n.id == note_id) with
        | none => (db1, .error ⟨500, .msg "Internal Server Error"⟩)
        | some updated_note => (db1, .ok updated_note) := by
  unfold update_note occ_read_phase occ_write_phase
  cases h : find_note db note_id current_user with
  | none => simp
  | some cn =>
    by_cases hm : cn.updated_at ≠ nu_updated_at
    · simp [hm]
    · simp [hm]

/-- If every element satisfying p was filtered out, find? p finds nothing. -/
theorem find?_filter_not {α : Type} (l : List α) (p : α → Bool) :
    (l.filter (fun x => !(p x))).find? p = none := by
  rw [List.find?_eq_none]
  intro x hx
  have h := (List.mem_filter.mp hx).2
  simp only [Bool.not_eq_true'] at h
  simp [h]

/-- Claim C1: on an authenticated update of an existing owned note, when the
believed marker differs (exact equality test) from the stored marker, the
update is not applied (the database is returned unchanged) and the call
fails with a 409 Conflict carrying the full current persisted note together
with the rejected proposed title and content. -/
theorem C1_stale_marker_conflict (db : DB) (now note_id nu_updated_at current_user : Nat)
    (nu_title nu_content : String) (n : NoteRec)
    (hfind : find_note db note_id current_user = some n)
    (hne : n.updated_at ≠ nu_updated_at) :
    update_note db now note_id nu_title nu_content nu_updated_at current_user =
      (db, .error ⟨409, .conflict ⟨"conflict",
        "Note has been updated by another user. Please resolve conflicts.",
        n, nu_title, nu_content⟩⟩) := by
  unfold update_note
  rw [hfind]
  simp [hne, conflictError]

/-- Witness for C1: a concrete store with one note whose marker is 10; an
update believing marker 7 is rejected with the conflict payload and the
store is unchanged. -/
theorem C1_stale_marker_conflict_witness :
    update_note ⟨[], [⟨1, "A", "x", 1, 10, 10⟩], 1, 2⟩ 12 1 "T" "y" 7 1 =
      (⟨[], [⟨1, "A", "x", 1, 10, 10⟩], 1, 2⟩, .error ⟨409, .conflict ⟨"conflict",
        "Note has been updated by another user. Please resolve conflicts.",
        ⟨1, "A", "x", 1, 10, 10⟩, "T", "y"⟩⟩) :=
  C1_stale_marker_conflict ⟨[], [⟨1, "A", "x", 1, 10, 10⟩], 1, 2⟩ 12 1 7 1 "T" "y"
    ⟨1, "A", "x", 1, 10, 10⟩ (by decide) (by decide)

/-- Claim C6: for every authenticated caller and note id, whenever the
owner-scoped lookup finds nothing — which covers both a note id that does
not exist at all and a note owned by a different user — getNote, updateNote
and deleteNote all fail with the one 404 Not found error and leave the
store unchanged, so the two absence cases are indistinguishable. -/
theorem C6_owner_scoped_not_found (db : DB) (note_id current_user : Nat)
    (now nu_updated_at : Nat) (nu_title nu_content : String)
    (habsent : find_note db note_id current_user = none) :
    get_note db note_id current_user = .error notFoundError ∧
    update_note db now note_id nu_title nu_content nu_updated_at current_user =
      (db, .error notFoundError) ∧
    delete_note db note_id current_user = (db, .error notFoundError) := by
  refine ⟨?_, ?_, ?_⟩
  · unfold get_note; rw [habsent]
  · unfold update_note; rw [habsent]
  · unfold delete_note; rw [habsent]

/-- Witness for C6: note 1 exists but belongs to user 1; caller 2 gets the
same 404 on all three operations as on the wholly nonexistent id 9. -/
theorem C6_owner_scoped_not_found_witness :
    (get_note ⟨[], [⟨1, "A", "x", 1, 10, 10⟩], 1, 2⟩ 1 2 = .error notFoundError ∧
     update_note ⟨[], [⟨1, "A", "x", 1, 10, 10⟩], 1, 2⟩ 11 1 "T" "y" 10 2 =
       (⟨[], [⟨1, "A", "x", 1, 10, 10⟩], 1, 2⟩, .error notFoundError) ∧
     delete_note ⟨[], [⟨1, "A", "x", 1, 10, 10⟩], 1, 2⟩ 1 2 =
       (⟨[], [⟨1, "A", "x", 1, 10, 10⟩], 1, 2⟩, .error notFoundError)) ∧
    (get_note ⟨[], [⟨1, "A", "x", 1, 10, 10⟩], 1, 2⟩ 9 1 = .error notFoundError ∧
     update_note ⟨[], [⟨1, "A", "x", 1, 10, 10⟩], 1, 2⟩ 11 9 "T" "y" 10 1 =
       (⟨[], [⟨1, "A", "x", 1, 10, 10⟩], 1, 2⟩, .error notFoundError) ∧
     delete_note ⟨[], [⟨1, "A", "x", 1, 10, 10⟩], 1, 2⟩ 9 1 =
       (⟨[], [⟨1, "A", "x", 1, 10, 10⟩], 1, 2⟩, .error notFoundError)) :=
  ⟨C6_owner_scoped_not_found ⟨[], [⟨1, "A", "x", 1, 10, 10⟩], 1, 2⟩ 1 2 11 10 "T" "y" (by decide),
   C6_owner_scoped_not_found ⟨[], [⟨1, "A", "x", 1, 10, 10⟩], 1, 2⟩ 9 1 11 10 "T" "y" (by decide)⟩

/-- Claim C8: deleteNote fails with 404 under the same owner-scoped lookup
as update (covering already-deleted and never-existing ids); otherwise —
unconditionally, deleteNote takes no marker argument at all, so no
concurrency check can apply — it removes the record and succeeds, and the
deletion is terminal: afterwards the owner-scoped lookup is empty and a
second delete fails with 404. -/
theorem C8_delete_unconditional (db : DB) (note_id current_user : Nat) :
    (find_note db note_id current_user = none →
      delete_note db note_id current_user = (db, .error notFoundError)) ∧
    (∀ n, find_note db note_id current_user = some n →
      delete_note db note_id current_user =
        ({ db with notes := (db.notes.filter
            (fun m => !(m.id == note_id && m.owner_id == current_user))) },
         .ok "Note deleted successfully") ∧
      find_note (delete_note db note_id current_user).1 note_id current_user = none ∧
      delete_note (delete_note db note_id current_user).1 note_id current_user =
        ((delete_note db note_id current_user).1, .error notFoundError)) := by
  have habs : ∀ db2 : DB, find_note db2 note_id current_user = none →
      delete_note db2 note_id current_user = (db2, .error notFoundError) := by
    intro db2 h2
    unfold delete_note
    rw [h2]
  constructor
  · exact habs db
  · intro n hfound
    have hdel : delete_note db note_id current_user =
        ({ db with notes := (db.notes.filter
            (fun m => !(m.id == note_id && m.owner_id == current_user))) },
         .ok "Note deleted successfully") := by
      unfold delete_note
      rw [hfound]
    have hgone : find_note (delete_note db note_id current_user).1 note_id current_user = none := by
      rw [hdel]
      unfold find_note
      exact find?_filter_not db.notes (fun m => m.id == note_id && m.owner_id == current_user)
    exact ⟨hdel, hgone, habs _ hgone⟩

/-- Witness for C8: deleting note 1 as its owner succeeds with no marker
involved, a repeat delete gives 404, and deleting the never-existing id 9
gives 404. -/
theorem C8_delete_unconditional_witness :
    (delete_note ⟨[], [⟨1, "A", "x", 1, 10, 10⟩], 1, 2⟩ 1 1 =
      (⟨[], [], 1, 2⟩, .ok "Note deleted successfully") ∧
     delete_note ⟨[], [], 1, 2⟩ 1 1 = (⟨[], [], 1, 2⟩, .error notFoundError)) ∧
    delete_note ⟨[], [⟨1, "A", "x", 1, 10, 10⟩], 1, 2⟩ 9 1 =
      (⟨[], [⟨1, "A", "x", 1, 10, 10⟩], 1, 2⟩, .error notFoundError) := by
  have h := (C8_delete_unconditional ⟨[], [⟨1, "A", "x", 1, 10, 10⟩], 1, 2⟩ 1 1).2
    ⟨1, "A", "x", 1, 10, 10⟩ (by decide)
  have h9 := (C8_delete_unconditional ⟨[], [⟨1, "A", "x", 1, 10, 10⟩], 1, 2⟩ 9 1).1 (by decide)
  refine ⟨⟨?_, ?_⟩, h9⟩
  · exact h.1
  · have := h.2.2
    rw [h.1] at this
    exact this

/-- Claim C4, part one as an exact characterisation, part two on issued
tokens: verification fails with 401 Invalid token exactly when the token is
malformed, the signature key does not match the process key, the user_id
claim is absent, or the token is expired; and a token issued by
create_access_token at time iat verifies to its user id while
now ≤ iat + 30 minutes and fails with 401 Invalid token as soon as now
passes that instant. -/
theorem C4_token_verification (tok : Token) (now uid iat t : Nat) :
    (get_current_user tok now = .error invalidTokenError ↔
      ¬ ∃ p u, tok = Token.signed p SECRET_KEY ∧ now ≤ p.exp ∧ p.user_id = some u) ∧
    (get_current_user (create_access_token uid iat) t =
      if t ≤ iat + ACCESS_TOKEN_EXPIRE_MINUTES * 60 then .ok uid
      else .error invalidTokenError) := by
  constructor
  · cases tok with
    | malformed raw => simp [get_current_user, jwt_decode]
    | signed p k =>
      by_cases hk : k = SECRET_KEY
      · subst hk
        by_cases hexp : now ≤ p.exp
        · cases hu : p.user_id with
          | none => simp [get_current_user, jwt_decode, hexp, hu]
          | some u => simp [get_current_user, jwt_decode, hexp, hu, invalidTokenError]
        · simp [get_current_user, jwt_decode, hexp]
      · simp [get_current_user, jwt_decode, hk]
  · by_cases ht : t ≤ iat + ACCESS_TOKEN_EXPIRE_MINUTES * 60
    · simp [get_current_user, jwt_decode, create_access_token, ht]
    · simp [get_current_user, jwt_decode, create_access_token, ht]

/-- Claim C5: for a registered user, login with the correct username and
password issues a token that verifies (within the lifetime window) to that
user id; login with an unknown username and login with a known username but
wrong password both fail with the one identical 401 Invalid credentials
error — the same error kind and the same response value, indistinguishable
to the caller. -/
theorem C5_login_credentials (db : DB) (now now2 : Nat) (username password : String) :
    (∀ u, db.users.find? (fun x => x.username == username) = some u →
      verify_password password u.password_hash = true →
      login db now username password = .ok (create_access_token u.id now) ∧
      (now2 ≤ now + ACCESS_TOKEN_EXPIRE_MINUTES * 60 →
        get_current_user (create_access_token u.id now) now2 = .ok u.id)) ∧
    (db.users.find? (fun x => x.username == username) = none →
      login db now username password = .error invalidCredentialsError) ∧
    (∀ u, db.users.find? (fun x => x.username == username) = some u →
      verify_password password u.password_hash = false →
      login db now username password = .error invalidCredentialsError) := by
  refine ⟨?_, ?_, ?_⟩
  · intro u hu hpw
    constructor
    · unfold login
      rw [hu]
      simp [hpw]
    · intro hnow2
      simp [get_current_user, jwt_decode, create_access_token, hnow2]
  · intro hnone
    unfold login
    rw [hnone]
  · intro u hu hpw
    unfold login
    rw [hu]
    simp [hpw]

/-- Witness for C5: alice logs in with the right password and the issued
token verifies to id 1; alice with a wrong password and the unknown bob
both get the identical 401 Invalid credentials value. -/
theorem C5_login_credentials_witness :
    login ⟨[⟨1, "alice", ⟨"s", "pw"⟩, 0⟩], [], 2, 1⟩ 100 "alice" "pw" =
      .ok (create_access_token 1 100) ∧
    get_current_user (create_access_token 1 100) 200 = .ok 1 ∧
    login ⟨[⟨1, "alice", ⟨"s", "pw"⟩, 0⟩], [], 2, 1⟩ 100 "alice" "wrong" =
      .error invalidCredentialsError ∧
    login ⟨[⟨1, "alice", ⟨"s", "pw"⟩, 0⟩], [], 2, 1⟩ 100 "bob" "pw" =
      .error invalidCredentialsError := by
  have hok := (C5_login_credentials ⟨[⟨1, "alice", ⟨"s", "pw"⟩, 0⟩], [], 2, 1⟩ 100 200 "alice" "pw").1
    ⟨1, "alice", ⟨"s", "pw"⟩, 0⟩ (by decide) (by decide)
  have hwrong := (C5_login_credentials ⟨[⟨1, "alice", ⟨"s", "pw"⟩, 0⟩], [], 2, 1⟩ 100 200 "alice" "wrong").2.2
    ⟨1, "alice", ⟨"s", "pw"⟩, 0⟩ (by decide) (by decide)
  have hbob := (C5_login_credentials ⟨[⟨1, "alice", ⟨"s", "pw"⟩, 0⟩], [], 2, 1⟩ 100 200 "bob" "pw").2.1
    (by decide)
  exact ⟨hok.1, hok.2 (by decide), hwrong, hbob⟩

/-- Claim C7: register fails with 400 Username already exists exactly when a
user with the exactly equal (case-sensitive) username is present; with a
fresh username it persists the identity record holding the bcrypt hash,
returns the new id, and any later register with the same username fails
with the duplicate error. -/
theorem C7_register_duplicate (db : DB) (now : Nat) (username password salt : String) :
    ((register db now username password salt).2 = .error duplicateUsernameError ↔
      ∃ u ∈ db.users, u.username = username) ∧
    ((¬ ∃ u ∈ db.users, u.username = username) →
      register db now username password salt =
        ({ users := db.users ++ [⟨db.next_user_id, username, hash_password salt password, now⟩],
           notes := db.notes, next_user_id := db.next_user_id + 1,
           next_note_id := db.next_note_id },
         .ok ⟨db.next_user_id, username, "User created"⟩) ∧
      ∀ now2 password2 salt2,
        (register (register db now username password salt).1 now2 username password2 salt2).2 =
          .error duplicateUsernameError) := by
  have hiff : ∀ l : List UserRec, (l.find? (fun x => x.username == username)).isSome ↔
      ∃ u ∈ l, u.username = username := by
    intro l
    rw [List.find?_isSome]
    simp
  constructor
  · by_cases hs : (db.users.find? (fun x => x.username == username)).isSome
    · constructor
      · intro _
        exact (hiff db.users).mp hs
      · intro _
        unfold register
        rw [if_pos hs]
    · constructor
      · intro herr
        exfalso
        have : register db now username password salt =
            ({ db with
                users := db.users ++ [⟨db.next_user_id, username, hash_password salt password, now⟩],
                next_user_id := db.next_user_id + 1 },
             .ok ⟨db.next_user_id, username, "User created"⟩) := by
          unfold register
          rw [if_neg hs]
        rw [this] at herr
        simp at herr
      · intro hex
        exact absurd ((hiff db.users).mpr hex) hs
  · intro hnex
    have hs : ¬ (db.users.find? (fun x => x.username == username)).isSome := fun h =>
      hnex ((hiff db.users).mp h)
    have hreg : register db now username password salt =
        ({ users := db.users ++ [⟨db.next_user_id, username, hash_password salt password, now⟩],
           notes := db.notes, next_user_id := db.next_user_id + 1,
           next_note_id := db.next_note_id },
         .ok ⟨db.next_user_id, username, "User created"⟩) := by
      unfold register
      rw [if_neg hs]
    refine ⟨hreg, ?_⟩
    intro now2 password2 salt2
    rw [hreg]
    have hs2 : (((db.users ++ [(⟨db.next_user_id, username, hash_password salt password, now⟩ : UserRec)]).find?
        (fun x => x.username == username))).isSome := by
      rw [hiff]
      exact ⟨(⟨db.next_user_id, username, hash_password salt password, now⟩ : UserRec),
        List.mem_append_right _ (List.mem_singleton.mpr rfl), rfl⟩
    unfold register
    rw [if_pos hs2]

/-- Witness for C7: registering alice against an empty store persists the
hash and returns id 1; re-registering alice fails with the duplicate error;
registering Alice (different case) against a store holding alice does not
hit the duplicate error. -/
theorem C7_register_duplicate_witness :
    register ⟨[], [], 1, 1⟩ 0 "alice" "pw" "s" =
      ({ users := [] ++ [⟨1, "alice", hash_password "s" "pw", 0⟩], notes := [],
         next_user_id := 2, next_note_id := 1 }, .ok ⟨1, "alice", "User created"⟩) ∧
    (register (register ⟨[], [], 1, 1⟩ 0 "alice" "pw" "s").1 5 "alice" "pw2" "s2").2 =
      .error duplicateUsernameError ∧
    (register ⟨[⟨1, "alice", ⟨"s", "pw"⟩, 0⟩], [], 2, 1⟩ 5 "Alice" "p" "t").2 ≠
      .error duplicateUsernameError := by
  have h := C7_register_duplicate ⟨[], [], 1, 1⟩ 0 "alice" "pw" "s"
  have h2 := h.2 (by simp)
  have hA := (C7_register_duplicate ⟨[⟨1, "alice", ⟨"s", "pw"⟩, 0⟩], [], 2, 1⟩ 5 "Alice" "p" "t").1
  refine ⟨h2.1, h2.2 5 "pw2" "s2", ?_⟩
  intro herr
  have := hA.mp herr
  simp at this

/-- Frame property of the UPDATE plus trigger: row for row, the result of
exec_update_note keeps id, owner_id and created_at, and leaves every row
that does not match both the id and the owner untouched. -/
theorem exec_update_note_frame (l : List NoteRec) (nid u : Nat) (t c : String) (now : Nat) :
    List.Forall₂ (fun old new =>
      new.id = old.id ∧ new.owner_id = old.owner_id ∧ new.created_at = old.created_at ∧
      (¬(old.id = nid ∧ old.owner_id = u) → new = old))
      l (exec_update_note l nid u t c now) := by
  induction l with
  | nil => simp [exec_update_note]
  | cons a as ih =>
    simp only [exec_update_note, List.map_cons] at ih ⊢
    refine List.Forall₂.cons ?_ ih
    by_cases h : (a.id == nid && a.owner_id == u) = true
    · rw [if_pos h]
      have hid : a.id = nid ∧ a.owner_id = u := by simpa using h
      exact ⟨rfl, rfl, rfl, fun hno => absurd hid hno⟩
    · rw [if_neg h]
      exact ⟨rfl, rfl, rfl, fun _ => rfl⟩

/-- Claim C9: a successful updateNote changes nothing but the target note:
the users table and both id counters are untouched, and row for row the
notes table keeps id, owner_id and created_at, with every non-target row
(different id or different owner) wholly unchanged — only the target row
can differ, and then only in title, content and updated_at. -/
theorem C9_update_frame (db : DB) (now note_id nu_updated_at current_user : Nat)
    (nu_title nu_content : String) (db' : DB) (n' : NoteRec)
    (h : update_note db now note_id nu_title nu_content nu_updated_at current_user =
      (db', .ok n')) :
    db'.users = db.users ∧ db'.next_user_id = db.next_user_id ∧
    db'.next_note_id = db.next_note_id ∧
    List.Forall₂ (fun old new =>
      new.id = old.id ∧ new.owner_id = old.owner_id ∧ new.created_at = old.created_at ∧
      (¬(old.id = note_id ∧ old.owner_id = current_user) → new = old))
      db.notes db'.notes := by
  have hdb : db' =
      { db with notes := exec_update_note db.notes note_id current_user nu_title nu_content now } := by
    cases hf : find_note db note_id current_user with
    | none =>
      simp only [update_note, hf] at h
      simp at h
    | some cn =>
      simp only [update_note, hf] at h
      by_cases hm : cn.updated_at ≠ nu_updated_at
      · simp [hm] at h
      · simp only [if_neg hm] at h
        cases hg : (exec_update_note db.notes note_id current_user nu_title nu_content now).find?
            (fun n => n.id == note_id) with
        | none =>
          simp only [hg] at h
          simp at h
        | some un =>
          simp only [hg] at h
          have h1 := congrArg Prod.fst h
          exact h1.symm
  subst hdb
  exact ⟨rfl, rfl, rfl, exec_update_note_frame db.notes note_id current_user nu_title nu_content now⟩

/-- Witness for C9: a successful update of note 1 in a store with a second
note and one user leaves the user, the counters, the other note, and the
identity fields of note 1 unchanged. -/
theorem C9_update_frame_witness :
    (⟨[⟨1, "alice", ⟨"s", "pw"⟩, 0⟩], [⟨1, "T", "y", 1, 5, 9⟩, ⟨2, "B", "z", 1, 6, 6⟩], 2, 3⟩ : DB).users =
      (⟨[⟨1, "alice", ⟨"s", "pw"⟩, 0⟩], [⟨1, "A", "x", 1, 5, 5⟩, ⟨2, "B", "z", 1, 6, 6⟩], 2, 3⟩ : DB).users ∧
    List.Forall₂ (fun (old new : NoteRec) =>
      new.id = old.id ∧ new.owner_id = old.owner_id ∧ new.created_at = old.created_at ∧
      (¬(old.id = 1 ∧ old.owner_id = 1) → new = old))
      ([⟨1, "A", "x", 1, 5, 5⟩, ⟨2, "B", "z", 1, 6, 6⟩] : List NoteRec)
      ([⟨1, "T", "y", 1, 5, 9⟩, ⟨2, "B", "z", 1, 6, 6⟩] : List NoteRec) := by
  have h := C9_update_frame
    ⟨[⟨1, "alice", ⟨"s", "pw"⟩, 0⟩], [⟨1, "A", "x", 1, 5, 5⟩, ⟨2, "B", "z", 1, 6, 6⟩], 2, 3⟩
    9 1 5 1 "T" "y"
    ⟨[⟨1, "alice", ⟨"s", "pw"⟩, 0⟩], [⟨1, "T", "y", 1, 5, 9⟩, ⟨2, "B", "z", 1, 6, 6⟩], 2, 3⟩
    ⟨1, "T", "y", 1, 5, 9⟩ rfl
  exact ⟨h.1, h.2.2.2⟩

/-- Claim C10: token verification never consults the credential store — a
well-signed unexpired token whose user_id claim names a nonexistent user is
accepted and yields that id, and listNotes with that id succeeds, returning
the empty sequence rather than any authentication error. -/
theorem C10_token_without_user (db : DB) (now iat uid : Nat)
    (hnow : now ≤ iat + ACCESS_TOKEN_EXPIRE_MINUTES * 60)
    (_hnouser : ∀ u ∈ db.users, u.id ≠ uid)
    (hnonotes : ∀ n ∈ db.notes, n.owner_id ≠ uid) :
    get_current_user (create_access_token uid iat) now = .ok uid ∧
    get_notes db uid = [] := by
  constructor
  · simp [get_current_user, jwt_decode, create_access_token, hnow]
  · unfold get_notes
    have hfil : db.notes.filter (fun n => n.owner_id == uid) = [] := by
      rw [List.filter_eq_nil_iff]
      intro n hn
      simpa using hnonotes n hn
    rw [hfil]
    rfl

/-- Witness for C10: the store has only user 1 and a note owned by user 1;
a fresh token for the nonexistent user 99 verifies to 99 and listNotes for
99 returns the empty list. -/
theorem C10_token_without_user_witness :
    get_current_user (create_access_token 99 0) 100 = .ok 99 ∧
    get_notes ⟨[⟨1, "alice", ⟨"s", "pw"⟩, 0⟩], [⟨1, "A", "x", 1, 5, 5⟩], 2, 2⟩ 99 = [] :=
  C10_token_without_user ⟨[⟨1, "alice", ⟨"s", "pw"⟩, 0⟩], [⟨1, "A", "x", 1, 5, 5⟩], 2, 2⟩
    100 0 99 (by decide) (by decide) (by decide)

/-- Witness for C4: a token issued at time 0 for user 7 still verifies at
the last instant of its 30-minute window and fails one second after. -/
theorem C4_token_verification_witness :
    get_current_user (create_access_token 7 0) 1800 = .ok 7 ∧
    get_current_user (create_access_token 7 0) 1801 = .error invalidTokenError := by
  have h1 := (C4_token_verification (create_access_token 7 0) 1800 7 0 1800).2
  have h2 := (C4_token_verification (create_access_token 7 0) 1801 7 0 1801).2
  constructor
  · simpa using h1
  · simpa using h2

/-- Claim C2 fails on the code: update_note runs a plain SELECT followed by
an UPDATE whose WHERE clause never mentions the marker (see
update_note_as_read_then_write for the decomposition), so nothing makes the
read-compare-write sequence atomic.  Interleaving two updates on note 1
that both believe marker 10 as read-read-write-write, both read phases pass
the collision check on the same state — neither caller receives a Conflict
— and after both unconditional writes the first caller's title and content
are silently gone: the classic lost update the claim rules out. -/
theorem C2_lost_update_interleaving :
    occ_read_phase ⟨[], [⟨1, "A", "x", 1, 10, 10⟩], 1, 2⟩ 1 "T1" "y1" 10 1 =
      .ok ⟨1, "A", "x", 1, 10, 10⟩ ∧
    occ_read_phase ⟨[], [⟨1, "A", "x", 1, 10, 10⟩], 1, 2⟩ 1 "T2" "y2" 10 1 =
      .ok ⟨1, "A", "x", 1, 10, 10⟩ ∧
    (occ_write_phase (occ_write_phase ⟨[], [⟨1, "A", "x", 1, 10, 10⟩], 1, 2⟩ 11 1 1 "T1" "y1")
        12 1 1 "T2" "y2").notes = [⟨1, "T2", "y2", 1, 10, 12⟩] :=
  ⟨rfl, rfl, rfl⟩

/-- Claim C3 fails on the code: the AFTER UPDATE trigger assigns
updated_at = CURRENT_TIMESTAMP, which has second resolution, so a
successful update in the same second as the stored marker returns a marker
equal to — not strictly greater than — the previous one, and two successive
successful updates within one second produce equal markers. -/
theorem C3_equal_marker_same_second :
    update_note ⟨[], [⟨1, "A", "x", 1, 10, 10⟩], 1, 2⟩ 10 1 "B" "y" 10 1 =
      (⟨[], [⟨1, "B", "y", 1, 10, 10⟩], 1, 2⟩, .ok ⟨1, "B", "y", 1, 10, 10⟩) ∧
    update_note ⟨[], [⟨1, "B", "y", 1, 10, 10⟩], 1, 2⟩ 10 1 "C" "z" 10 1 =
      (⟨[], [⟨1, "C", "z", 1, 10, 10⟩], 1, 2⟩, .ok ⟨1, "C", "z", 1, 10, 10⟩) :=
  ⟨rfl, rfl⟩

end Notes
